import Mathlib

/-!
Shallow embedding of the Hathor audio playback core:
* `src/crates/hathor-audios/src/audio/playback.rs` (the playback controller:
  `do_play_loop`, `Playback::try_consume_next_audio_command`,
  `Playback::change_audio`, `Playback::seek`, `get_decoder`,
  `get_first_supported_track`),
* `src/crates/hathor-songs/src/audio/playback_manager.rs` (the `AudioManager`
  facade and its channels).

The symphonia demux/decode backend is external to the repository; it enters the
model as an `Env` record of oracles (probe result per file, decoder
construction, decode outcome per packet, seek resolution).  Rust panics
(`unwrap()` on `None` / on an `Err`) are modelled explicitly as the `Panic`
error layer, so that a theorem can speak about which unwraps can fire.
mpsc channels are modelled as lists: the receiver side of the command channel
is the `receiver_from_audio_manager` queue inside the controller state, and the
replies sent so far are accumulated in order in `sender_to_audio_manager`.
-/

namespace Hathor

/-- A media file handed to `ChangeAudio`; the controller only uses it as a key
into the probe (`audio_path` in the source).  -/
structure AudioFile where
  audio_path : Nat
  deriving Repr, DecidableEq

/-- `symphonia::core::codecs::CODEC_TYPE_NULL` (the "no codec" sentinel). -/
def CODEC_TYPE_NULL : Nat := 0

/-- One track of a probed container (`symphonia::core::formats::Track`):
its `id` and the codec type in its codec parameters. -/
structure Track where
  id : Nat
  codec : Nat
  deriving Repr, DecidableEq

/-- A timestamped, track-tagged packet (`symphonia::core::formats::Packet`). -/
structure Packet where
  track_id : Nat
  ts : Nat
  deriving Repr, DecidableEq

/-- Errors of the symphonia backend that the controller distinguishes
(`symphonia::core::errors::Error`): a recoverable per-packet decode error,
`ResetRequired`, and everything else (I/O, unsupported format, end of
stream, ...) collapsed to their effect on the controller. -/
inductive SymError where
  | decodeError
  | resetRequired
  | ioError
  | unsupported
  | endOfStream
  deriving Repr, DecidableEq

instance {ε α : Type} [DecidableEq ε] [DecidableEq α] : DecidableEq (Except ε α) :=
  fun x y =>
    match x, y with
    | Except.ok a, Except.ok b =>
        if h : a = b then isTrue (by rw [h])
        else isFalse (by intro hc; cases hc; exact h rfl)
    | Except.ok _, Except.error _ => isFalse (by intro hc; cases hc)
    | Except.error _, Except.ok _ => isFalse (by intro hc; cases hc)
    | Except.error a, Except.error b =>
        if h : a = b then isTrue (by rw [h])
        else isFalse (by intro hc; cases hc; exact h rfl)

/-- A decoded sample buffer: its signal spec and buffer capacity, which are
all the controller reads from it (`decoded.spec()`, `decoded.capacity()`). -/
structure SampleBuffer where
  spec : Nat
  capacity : Nat
  deriving Repr, DecidableEq

/-- Decoder handle state.  `resets` counts `Decoder::reset` calls and `steps`
counts successful/attempted `decode` calls, so that theorems can observe that
the seek handler reset the decoder and that a packet was really decoded. -/
structure Decoder where
  codec : Nat
  resets : Nat
  steps : Nat
  deriving Repr, DecidableEq

/-- `Decoder::reset`. -/
def Decoder.reset (d : Decoder) : Decoder :=
  { d with resets := d.resets + 1 }

/-- A format reader (demuxer) handle: the container tracks and the stream of
results `next_packet` will yield, in order.  An exhausted stream yields the
end-of-stream error, as symphonia does. -/
structure FormatReaderState where
  tracks : List Track
  packets : List (Except SymError Packet)
  deriving Repr, DecidableEq

/-- `FormatReader::next_packet`: pop the next packet result. -/
def FormatReaderState.next_packet (fr : FormatReaderState) :
    Except SymError (Packet × FormatReaderState) :=
  match fr.packets with
  | [] => Except.error SymError.endOfStream
  | Except.error e :: _ => Except.error e
  | Except.ok pk :: rest => Except.ok (pk, { fr with packets := rest })

/-- `symphonia::core::formats::SeekMode`. -/
inductive SeekMode where
  | coarse
  | accurate
  deriving Repr, DecidableEq

/-- The backend result of `FormatReader::seek` as the controller consumes it:
`Ok(SeekedTo)` carrying `required_ts`, the `ResetRequired` error, or any
other error. -/
inductive SeekOutcome where
  | ok (required_ts : Nat)
  | resetRequired
  | err (e : SymError)
  deriving Repr, DecidableEq

/-- The outcome of `Decoder::decode` on one packet: a decoded buffer, a
recoverable `DecodeError`, or a fatal error; each with the decoder state
afterwards. -/
inductive DecodeOutcome where
  | ok (buf : SampleBuffer) (d : Decoder)
  | recoverable (d : Decoder)
  | fatal (e : SymError) (d : Decoder)
  deriving Repr, DecidableEq

/-- Modelled from the spec: the `AudioOutputSink` backend
(`crate::audio::output`, declared as `mod output;` in
`src/crates/hathor-audios/src/audio.rs` but whose source file is not in the
repository snapshot).  Per spec section 4.3 a sink is opened from a sample
spec and a buffer capacity, and `write(sample_buffer)` must not silently drop
samples; we record the buffers written, in order. -/
structure AudioOutput where
  spec : Nat
  duration : Nat
  written : List SampleBuffer
  deriving Repr, DecidableEq

/-- Modelled from the spec: `AudioOutput::write` appends the buffer to the
sink (spec section 4.3: may block, never drops).  -/
def AudioOutput.write (out : AudioOutput) (buf : SampleBuffer) : AudioOutput :=
  { out with written := out.written ++ [buf] }

/-- The external backend oracles: what `symphonia` would answer.
`probe` is `get_probe().format(...)` keyed by the file (an `Err` is an
unsupported/unopenable input); `make_decoder` is
`get_codecs().make(&track.codec_params, ...)`; `decode` is
`Decoder::decode(&packet)`; `seek_fr` is `FormatReader::seek(mode, seek_to)`,
returning the outcome and the reader state afterwards; `try_open` is
`output::try_open(spec, duration)` (modelled from the spec for the missing
`output` module: it may fail with an unsupported-spec error). -/
structure Env where
  probe : AudioFile → Except SymError FormatReaderState
  make_decoder : Track → Except SymError Decoder
  decode : Decoder → Packet → DecodeOutcome
  seek_fr : SeekMode → Nat → Option Nat → FormatReaderState →
      SeekOutcome × FormatReaderState
  try_open : Nat → Nat → Except SymError AudioOutput

/-- The commands of `AudioCommand` in
`src/crates/hathor-songs/src/audio/playback_manager.rs`. -/
inductive AudioCommand where
  | changeAudio (audio : AudioFile)
  | pause
  | play
  | resetPlayback
  | seek (ts : Nat)
  deriving Repr, DecidableEq

/-- A reply on the channel back to the `AudioManager`
(`eyre::Result<()>`). -/
abbrev Reply : Type := Except SymError Unit

/-- The sites where the controller code can panic (`unwrap()` on `None` or on
an `Err`). -/
inductive Panic where
  | unwrapNoneFormatReader
  | unwrapNoneDecoder
  | unwrapNoFirstTrack
  | tryOpenFailed
  | unwrapErrReply
  deriving Repr, DecidableEq

/-- The controller state `struct Playback` of
`src/crates/hathor-audios/src/audio/playback.rs`, with its two channel
endpoints modelled as queues: `receiver_from_audio_manager` holds the
commands not yet consumed and `sender_to_audio_manager` accumulates the
replies sent so far, in order. -/
structure Playback where
  receiver_from_audio_manager : List AudioCommand
  sender_to_audio_manager : List Reply
  format_reader : Option FormatReaderState
  decoder : Option Decoder
  audio_output : Option AudioOutput
  play : Bool
  seek_ts_seconds : Nat
  track_id : Nat
  deriving Repr, DecidableEq

/-- `Playback::new`. -/
def Playback.new (cmds : List AudioCommand) : Playback :=
  { receiver_from_audio_manager := cmds
    sender_to_audio_manager := []
    format_reader := none
    decoder := none
    audio_output := none
    play := true
    seek_ts_seconds := 0
    track_id := 0 }

/-- `get_first_supported_track`: the first track, in declaration order, whose
codec type is not `CODEC_TYPE_NULL`. -/
def get_first_supported_track (tracks : List Track) : Option Track :=
  tracks.find? (fun t => t.codec ≠ CODEC_TYPE_NULL)

/-- `get_decoder`: unwraps (panics) when no track qualifies, otherwise asks
the codec registry for a decoder for the first supported track. -/
def get_decoder (env : Env) (fr : FormatReaderState) :
    Except Panic (Except SymError Decoder) :=
  match get_first_supported_track fr.tracks with
  | none => Except.error Panic.unwrapNoFirstTrack
  | some track => Except.ok (env.make_decoder track)

/-- `Playback::change_audio`: probe the file into a format reader, construct
a decoder, and on success select the first supported track's id and install
the new reader and decoder.  A probe or decoder-construction error is
returned; the state is untouched on any error. -/
def Playback.change_audio (env : Env) (p : Playback) (audio : AudioFile) :
    Except Panic (Except SymError Playback) :=
  match env.probe audio with
  | Except.error e => Except.ok (Except.error e)
  | Except.ok fr =>
      match get_decoder env fr with
      | Except.error pan => Except.error pan
      | Except.ok (Except.error e) => Except.ok (Except.error e)
      | Except.ok (Except.ok d) =>
          match get_first_supported_track fr.tracks with
          | none => Except.error Panic.unwrapNoFirstTrack
          | some track =>
              Except.ok (Except.ok
                { p with
                  track_id := track.id
                  format_reader := some fr
                  decoder := some d })

/-- The seek floor the controller records from a backend seek outcome:
`required_ts` on success, `0` on `ResetRequired`, `0` (logged, non-fatal) on
any other seek error. -/
def resolvedFloor : SeekOutcome → Nat
  | SeekOutcome.ok ts => ts
  | SeekOutcome.resetRequired => 0
  | SeekOutcome.err _ => 0

/-- `Playback::seek`: when a reader and a decoder are present, reset the
decoder, seek the reader in accurate mode to `ts` on the selected track and
record the resolved floor; otherwise the floor becomes 0.  Never fails. -/
def Playback.seek (env : Env) (p : Playback) (ts : Nat) : Playback :=
  match p.format_reader, p.decoder with
  | some fr, some d =>
      let d2 := d.reset
      let res := env.seek_fr SeekMode.accurate ts (some p.track_id) fr
      { p with
        seek_ts_seconds := resolvedFloor res.1
        format_reader := some res.2
        decoder := some d2 }
  | _, _ => { p with seek_ts_seconds := 0 }

/-- The two ways `Playback::try_consume_next_audio_command` can return to the
loop: normally (with the mutated state), or propagating an error out of
`change_audio` via `?` (also with the mutated state, which the loop then
abandons). -/
inductive ConsumeResult where
  | ok (p : Playback)
  | err (e : SymError) (p : Playback)
  deriving Repr, DecidableEq

/-- Append one `Ok(())` reply on the channel to the `AudioManager`
(`self.sender_to_audio_manager.send(Ok(())).unwrap()`). -/
def Playback.sendOk (p : Playback) : Playback :=
  { p with sender_to_audio_manager := p.sender_to_audio_manager ++ [Except.ok ()] }

/-- `Playback::try_consume_next_audio_command`: non-blocking check of the
command channel; at most one command is consumed.  `Pause`/`Play` set the
flag, `Seek(ts)` and `ResetPlayback` (= seek 0) run the seek handler,
`ChangeAudio` runs `change_audio` and propagates its error with `?` (so in
the error case no reply is ever sent: the `Err`-sending branch after the
match is unreachable, since every arm that completes yields `Ok`).  Every
command that completes is answered with exactly one `Ok(())` reply. -/
def Playback.try_consume_next_audio_command (env : Env) (p : Playback) :
    Except Panic ConsumeResult :=
  match p.receiver_from_audio_manager with
  | [] => Except.ok (ConsumeResult.ok p)
  | AudioCommand.pause :: rest =>
      Except.ok (ConsumeResult.ok
        (Playback.sendOk { p with receiver_from_audio_manager := rest, play := false }))
  | AudioCommand.play :: rest =>
      Except.ok (ConsumeResult.ok
        (Playback.sendOk { p with receiver_from_audio_manager := rest, play := true }))
  | AudioCommand.seek ts :: rest =>
      Except.ok (ConsumeResult.ok
        (Playback.sendOk
          (Playback.seek env { p with receiver_from_audio_manager := rest } ts)))
  | AudioCommand.resetPlayback :: rest =>
      Except.ok (ConsumeResult.ok
        (Playback.sendOk
          (Playback.seek env { p with receiver_from_audio_manager := rest } 0)))
  | AudioCommand.changeAudio audio :: rest =>
      match Playback.change_audio env
          { p with receiver_from_audio_manager := rest } audio with
      | Except.error pan => Except.error pan
      | Except.ok (Except.error e) =>
          Except.ok (ConsumeResult.err e { p with receiver_from_audio_manager := rest })
      | Except.ok (Except.ok p2) => Except.ok (ConsumeResult.ok (Playback.sendOk p2))

/-- What one iteration of the main `loop` in `do_play_loop` does: either the
loop continues with a new state (recording the sample buffers written to the
sink during the iteration, tagged with the gating packet timestamp), or the
loop exits with an error (`break Err(..)` on a packet/stream error, or the
`?` on a failed `ChangeAudio`). -/
inductive StepResult where
  | ran (p : Playback) (writes : List (Nat × SampleBuffer))
  | exited (e : SymError) (p : Playback)
  deriving Repr, DecidableEq

/-- The decode/write phase of one loop iteration (everything in the `loop`
body after the command check and the `play` test): pull the next packet
(unwrap of `format_reader`), skip it if it is not from the selected track,
decode it (unwrap of `decoder`), lazily open the sink on the first
successful decode, and write the buffer only when the packet timestamp is at
least `seek_ts_seconds`.  Recoverable decode errors are logged and the loop
continues; any other error exits the loop. -/
def decode_tick (env : Env) (p : Playback) : Except Panic StepResult :=
  match p.format_reader with
  | none => Except.error Panic.unwrapNoneFormatReader
  | some fr =>
      match fr.next_packet with
      | Except.error e => Except.ok (StepResult.exited e p)
      | Except.ok (pk, fr2) =>
          let p2 := { p with format_reader := some fr2 }
          if pk.track_id ≠ p2.track_id then
            Except.ok (StepResult.ran p2 [])
          else
            match p2.decoder with
            | none => Except.error Panic.unwrapNoneDecoder
            | some d =>
                match env.decode d pk with
                | DecodeOutcome.ok buf d2 =>
                    let p3 := { p2 with decoder := some d2 }
                    match p3.audio_output with
                    | none =>
                        match env.try_open buf.spec buf.capacity with
                        | Except.error _ => Except.error Panic.tryOpenFailed
                        | Except.ok out =>
                            if p3.seek_ts_seconds ≤ pk.ts then
                              Except.ok (StepResult.ran
                                { p3 with audio_output := some (out.write buf) }
                                [(pk.ts, buf)])
                            else
                              Except.ok (StepResult.ran
                                { p3 with audio_output := some out } [])
                    | some out =>
                        if p3.seek_ts_seconds ≤ pk.ts then
                          Except.ok (StepResult.ran
                            { p3 with audio_output := some (out.write buf) }
                            [(pk.ts, buf)])
                        else
                          Except.ok (StepResult.ran p3 [])
                | DecodeOutcome.recoverable d2 =>
                    Except.ok (StepResult.ran { p2 with decoder := some d2 } [])
                | DecodeOutcome.fatal e d2 =>
                    Except.ok (StepResult.exited e { p2 with decoder := some d2 })

/-- One iteration of the main `loop` of `do_play_loop`: consume at most one
pending command (a `?` error from a failed `ChangeAudio` exits the loop),
then, when the play flag is cleared, `continue`; otherwise run the
decode/write phase. -/
def loop_iter (env : Env) (p : Playback) : Except Panic StepResult :=
  match Playback.try_consume_next_audio_command env p with
  | Except.error pan => Except.error pan
  | Except.ok (ConsumeResult.err e p1) => Except.ok (StepResult.exited e p1)
  | Except.ok (ConsumeResult.ok p1) =>
      if p1.play = false then Except.ok (StepResult.ran p1 [])
      else decode_tick env p1

/-- The caller-side view of the two mpsc channels owned by `AudioManager`
(`src/crates/hathor-songs/src/audio/playback_manager.rs`): the pending
commands on the command channel, the pending replies on the reply channel,
and whether each channel's counterpart has hung up (the controller thread is
gone). -/
structure ManagerChannels where
  cmd_queue : List AudioCommand
  cmd_closed : Bool
  reply_queue : List Reply
  reply_closed : Bool
  deriving Repr, DecidableEq

/-- `Sender::send`: fails (with `SendError`, modelled as `Unit`) exactly when
the receiving side is gone; otherwise appends the command. -/
def ManagerChannels.send (ch : ManagerChannels) (cmd : AudioCommand) :
    Except Unit ManagerChannels :=
  if ch.cmd_closed then Except.error ()
  else Except.ok { ch with cmd_queue := ch.cmd_queue ++ [cmd] }

/-- `AudioManager::play`: `self.send_to_playback_tx.send(AudioCommand::Play)`
and nothing else — the source does not read the reply channel here. -/
def AudioManager.play (ch : ManagerChannels) : Except Unit ManagerChannels :=
  ManagerChannels.send ch AudioCommand.play

/-- `AudioManager::pause`: send `Pause`, then `recv()?` on the reply channel
and `unwrap()` the received `Result`.  A blocking `recv` on an empty open
queue never returns; that case is the `none` of the outer `Option`. -/
def AudioManager.pause (ch : ManagerChannels) :
    Option (Except Panic (Except Unit ManagerChannels)) :=
  match ManagerChannels.send ch AudioCommand.pause with
  | Except.error _ => some (Except.ok (Except.error ()))
  | Except.ok ch1 =>
      match ch1.reply_queue with
      | Except.ok _ :: rest =>
          some (Except.ok (Except.ok { ch1 with reply_queue := rest }))
      | Except.error _ :: _ => some (Except.error Panic.unwrapErrReply)
      | [] =>
          if ch1.reply_closed then some (Except.ok (Except.error ()))
          else none

/-- Modelled from the spec: what section 4.1 asserts `play()` does —
"enqueues `Play`; blocks until reply; error iff the controller is gone
(channel closed)".  This is the comparison point for the refinement claim
about `AudioManager::play`; it consumes the reply the way `pause` does. -/
def AudioManager.playSpec (ch : ManagerChannels) :
    Option (Except Unit ManagerChannels) :=
  match ManagerChannels.send ch AudioCommand.play with
  | Except.error _ => some (Except.error ())
  | Except.ok ch1 =>
      match ch1.reply_queue with
      | _ :: rest => some (Except.ok { ch1 with reply_queue := rest })
      | [] =>
          if ch1.reply_closed then some (Except.error ())
          else none

/-- The playback state carried by either outcome of
`try_consume_next_audio_command` (the `&mut self` after the call). -/
def ConsumeResult.state : ConsumeResult → Playback
  | ConsumeResult.ok p => p
  | ConsumeResult.err _ p => p

/-! ### Concrete fixtures used by witnesses and counterexamples -/

/-- A pcm track with a real codec. -/
def track1 : Track := { id := 1, codec := 7 }

/-- A track with the null-codec sentinel. -/
def trackNull : Track := { id := 0, codec := CODEC_TYPE_NULL }

/-- A decoded buffer fixture. -/
def buf0 : SampleBuffer := { spec := 44100, capacity := 1152 }

/-- A decoder fixture. -/
def dec0 : Decoder := { codec := 7, resets := 0, steps := 0 }

/-- A sink fixture, already open, nothing written yet. -/
def out0 : AudioOutput := { spec := 44100, duration := 1152, written := [] }

/-- A container with a null-codec track id 0 and a pcm track id 1, and a
packet for each. -/
def frGood : FormatReaderState :=
  { tracks := [trackNull, track1]
    packets := [Except.ok { track_id := 0, ts := 3 }, Except.ok { track_id := 1, ts := 4 }] }

/-- A well-behaved backend: every probe yields `frGood`, decoding always
succeeds with `buf0`, seeks resolve to ten times the requested second. -/
def envGood : Env :=
  { probe := fun _ => Except.ok frGood
    make_decoder := fun t => Except.ok { codec := t.codec, resets := 0, steps := 0 }
    decode := fun d _ => DecodeOutcome.ok buf0 { d with steps := d.steps + 1 }
    seek_fr := fun _ ts _ fr => (SeekOutcome.ok (ts * 10), fr)
    try_open := fun s dur => Except.ok { spec := s, duration := dur, written := [] } }

/-- A backend whose probe rejects every file (unsupported format). -/
def envBadProbe : Env :=
  { envGood with probe := fun _ => Except.error SymError.unsupported }

/-- A backend whose probe yields a container in which every track carries the
null-codec sentinel. -/
def envAllNull : Env :=
  { envGood with probe := fun _ => Except.ok { tracks := [trackNull], packets := [] } }

/-- A controller state with a track loaded (track id 1 of `frGood`), the sink
open, playing, floor 0, no pending command. -/
def pLoaded : Playback :=
  { receiver_from_audio_manager := []
    sender_to_audio_manager := []
    format_reader := some frGood
    decoder := some dec0
    audio_output := some out0
    play := true
    seek_ts_seconds := 0
    track_id := 1 }

/-- A file fixture. -/
def fileX : AudioFile := { audio_path := 9 }

/-- Another file fixture. -/
def fileY : AudioFile := { audio_path := 10 }

/-- `pLoaded` with seek floor 5 and a pending `ChangeAudio` command. -/
def pC2 : Playback :=
  { pLoaded with
    seek_ts_seconds := 5
    receiver_from_audio_manager := [AudioCommand.changeAudio fileX] }

/-- The state after `pC2` consumes its `ChangeAudio` against `envGood`. -/
def pC2r : Playback :=
  { receiver_from_audio_manager := []
    sender_to_audio_manager := [Except.ok ()]
    format_reader := some frGood
    decoder := some { codec := 7, resets := 0, steps := 0 }
    audio_output := some out0
    play := true
    seek_ts_seconds := 5
    track_id := 1 }

/-- A backend whose every seek reports `ResetRequired`. -/
def envSeekReset : Env :=
  { envGood with seek_fr := fun _ _ _ fr => (SeekOutcome.resetRequired, fr) }

/-- A backend whose every seek fails with an I/O error. -/
def envSeekErr : Env :=
  { envGood with seek_fr := fun _ _ _ fr => (SeekOutcome.err SymError.ioError, fr) }

/-- `pLoaded` paused. -/
def pPaused : Playback := { pLoaded with play := false }

/-! ### Helper lemmas -/

/-- A successful `change_audio` only writes `track_id`, `format_reader` and
`decoder`: every other field is untouched, and the two handles are both
installed. -/
lemma change_audio_ok_fields (env : Env) (p : Playback) (a : AudioFile)
    (p2 : Playback)
    (h : Playback.change_audio env p a = Except.ok (Except.ok p2)) :
    p2.receiver_from_audio_manager = p.receiver_from_audio_manager
    ∧ p2.sender_to_audio_manager = p.sender_to_audio_manager
    ∧ p2.audio_output = p.audio_output
    ∧ p2.play = p.play
    ∧ p2.seek_ts_seconds = p.seek_ts_seconds
    ∧ p2.format_reader.isSome = true ∧ p2.decoder.isSome = true := by
  unfold Playback.change_audio at h
  repeat' split at h
  all_goals simp at h
  subst h
  simp

/-- `Playback.seek` only writes `seek_ts_seconds`, `format_reader` and
`decoder`. -/
lemma seek_preserves (env : Env) (p : Playback) (ts : Nat) :
    (Playback.seek env p ts).receiver_from_audio_manager = p.receiver_from_audio_manager
    ∧ (Playback.seek env p ts).sender_to_audio_manager = p.sender_to_audio_manager
    ∧ (Playback.seek env p ts).play = p.play
    ∧ (Playback.seek env p ts).audio_output = p.audio_output
    ∧ (Playback.seek env p ts).track_id = p.track_id := by
  unfold Playback.seek
  split <;> simp

/-- `Playback.seek` either leaves the two handles unchanged (when one is
missing) or leaves both installed. -/
lemma seek_reader_decoder (env : Env) (p : Playback) (ts : Nat) :
    ((Playback.seek env p ts).format_reader = p.format_reader
      ∧ (Playback.seek env p ts).decoder = p.decoder)
    ∨ ((Playback.seek env p ts).format_reader.isSome = true
      ∧ (Playback.seek env p ts).decoder.isSome = true) := by
  unfold Playback.seek
  split
  · exact Or.inr (by simp)
  · exact Or.inl (by simp)

/-- Every state coming out of `try_consume_next_audio_command` either keeps
the reader/decoder pair exactly as it was, or has both installed. -/
lemma consume_state_reader_decoder (env : Env) (p : Playback)
    (r : ConsumeResult)
    (h : Playback.try_consume_next_audio_command env p = Except.ok r) :
    ((ConsumeResult.state r).format_reader = p.format_reader
      ∧ (ConsumeResult.state r).decoder = p.decoder)
    ∨ ((ConsumeResult.state r).format_reader.isSome = true
      ∧ (ConsumeResult.state r).decoder.isSome = true) := by
  rcases hr : p.receiver_from_audio_manager with _ | ⟨cmd, rest⟩
  · unfold Playback.try_consume_next_audio_command at h
    rw [hr] at h
    simp only [Except.ok.injEq] at h
    subst h
    exact Or.inl ⟨rfl, rfl⟩
  · cases cmd
    case pause =>
      unfold Playback.try_consume_next_audio_command at h
      rw [hr] at h
      simp only [Except.ok.injEq] at h
      subst h
      exact Or.inl (by simp [ConsumeResult.state, Playback.sendOk])
    case play =>
      unfold Playback.try_consume_next_audio_command at h
      rw [hr] at h
      simp only [Except.ok.injEq] at h
      subst h
      exact Or.inl (by simp [ConsumeResult.state, Playback.sendOk])
    case seek ts =>
      unfold Playback.try_consume_next_audio_command at h
      rw [hr] at h
      simp only [Except.ok.injEq] at h
      subst h
      rcases seek_reader_decoder env { p with receiver_from_audio_manager := rest } ts with
        ⟨h1, h2⟩ | ⟨h1, h2⟩
      · exact Or.inl (by simp [ConsumeResult.state, Playback.sendOk, h1, h2])
      · exact Or.inr (by simp [ConsumeResult.state, Playback.sendOk, h1, h2])
    case resetPlayback =>
      unfold Playback.try_consume_next_audio_command at h
      rw [hr] at h
      simp only [Except.ok.injEq] at h
      subst h
      rcases seek_reader_decoder env { p with receiver_from_audio_manager := rest } 0 with
        ⟨h1, h2⟩ | ⟨h1, h2⟩
      · exact Or.inl (by simp [ConsumeResult.state, Playback.sendOk, h1, h2])
      · exact Or.inr (by simp [ConsumeResult.state, Playback.sendOk, h1, h2])
    case changeAudio a =>
      unfold Playback.try_consume_next_audio_command at h
      rw [hr] at h
      simp only [] at h
      rcases hca : Playback.change_audio env
          { p with receiver_from_audio_manager := rest } a with pan | res
      · rw [hca] at h
        simp at h
      · rw [hca] at h
        cases res with
        | error e =>
            simp only [Except.ok.injEq] at h
            subst h
            exact Or.inl (by simp [ConsumeResult.state])
        | ok p2 =>
            simp only [Except.ok.injEq] at h
            subst h
            have hf := change_audio_ok_fields env
              { p with receiver_from_audio_manager := rest } a p2 hca
            exact Or.inr (by
              simp [ConsumeResult.state, Playback.sendOk, hf.2.2.2.2.2.1, hf.2.2.2.2.2.2])

/-! ### Claim theorems (continued) -/

/-- With any backend whose successful accurate seek to time 0 resolves to
`required_ts` 0 (as symphonia's `SeekedTo.required_ts` contract gives for a
seek to time 0), the seek handler invoked with target 0 always leaves the
floor at 0: success yields the resolved 0, `ResetRequired` and other seek
errors yield 0, and so does the no-track branch. -/
lemma seek_zero_floor (env : Env) (p : Playback)
    (hzero : ∀ (fr : FormatReaderState) (tid : Option Nat) (rts : Nat),
        (env.seek_fr SeekMode.accurate 0 tid fr).1 = SeekOutcome.ok rts → rts = 0) :
    (Playback.seek env p 0).seek_ts_seconds = 0 := by
  rcases hf : p.format_reader with _ | fr
  · simp [Playback.seek, hf]
  · rcases hd : p.decoder with _ | d
    · simp [Playback.seek, hf, hd]
    · rcases ho : (env.seek_fr SeekMode.accurate 0 (some p.track_id) fr).1 with
        rts | _ | e
      · have h0 := hzero fr (some p.track_id) rts ho
        simp [Playback.seek, hf, hd, ho, resolvedFloor, h0]
      · simp [Playback.seek, hf, hd, ho, resolvedFloor]
      · simp [Playback.seek, hf, hd, ho, resolvedFloor]

/-- Claim C2, amended: a successfully handled `ChangeAudio` leaves
`seek_ts_seconds` unchanged (it does not reset it to 0 on a track load);
after every `ResetPlayback` command (handled as a seek to 0) the seek floor
equals 0 — under the backend contract that a successful accurate seek to
time 0 resolves to `required_ts` 0 (which symphonia satisfies), while every
seek-error branch and the no-track branch set the floor to 0 outright. -/
theorem floor_after_change_audio_and_reset :
    (∀ (env : Env) (p : Playback) (a : AudioFile) (p2 : Playback),
        Playback.change_audio env p a = Except.ok (Except.ok p2) →
        p2.seek_ts_seconds = p.seek_ts_seconds)
    ∧ (∀ (env : Env) (p : Playback) (rest : List AudioCommand) (r : ConsumeResult),
        (∀ (fr : FormatReaderState) (tid : Option Nat) (rts : Nat),
            (env.seek_fr SeekMode.accurate 0 tid fr).1 = SeekOutcome.ok rts → rts = 0) →
        p.receiver_from_audio_manager = AudioCommand.resetPlayback :: rest →
        Playback.try_consume_next_audio_command env p = Except.ok r →
        (ConsumeResult.state r).seek_ts_seconds = 0) := by
  constructor
  · intro env p a p2 h
    exact (change_audio_ok_fields env p a p2 h).2.2.2.2.1
  · intro env p rest r hzero hr h
    unfold Playback.try_consume_next_audio_command at h
    rw [hr] at h
    simp only [Except.ok.injEq] at h
    subst h
    simp only [ConsumeResult.state, Playback.sendOk]
    exact seek_zero_floor env { p with receiver_from_audio_manager := rest } hzero

/-- Witness for the amended C2 theorem: a `ChangeAudio` handled from floor 0
keeps floor 0; consuming a `ResetPlayback` against `envGood` (whose accurate
seek to 0 resolves to 0 · 10 = 0) leaves the floor at 0. -/
theorem floor_after_change_audio_and_reset_witness :
    ({ pLoaded with
        track_id := 1
        format_reader := some frGood
        decoder := some { codec := 7, resets := 0, steps := 0 } } : Playback).seek_ts_seconds
      = pLoaded.seek_ts_seconds
    ∧ (ConsumeResult.state
        (ConsumeResult.ok
          (Playback.sendOk (Playback.seek envGood pLoaded 0)))).seek_ts_seconds = 0 := by
  constructor
  · exact floor_after_change_audio_and_reset.1 envGood pLoaded fileX _ rfl
  · exact floor_after_change_audio_and_reset.2 envGood
      { pLoaded with receiver_from_audio_manager := [AudioCommand.resetPlayback] } []
      (ConsumeResult.ok (Playback.sendOk (Playback.seek envGood pLoaded 0)))
      (by
        intro fr tid rts h
        simp [envGood] at h
        omega)
      rfl rfl

/-- Claim C3, amended: `AudioManager::play` enqueues the `Play` command and
returns immediately without touching the reply channel; it returns an error
exactly when the controller side of the command channel is gone. -/
theorem play_enqueues_and_errs_iff_controller_gone (ch : ManagerChannels) :
    AudioManager.play ch
      = (if ch.cmd_closed then Except.error ()
         else Except.ok { ch with cmd_queue := ch.cmd_queue ++ [AudioCommand.play] }) := by
  by_cases h : ch.cmd_closed <;>
    simp [AudioManager.play, ManagerChannels.send, h]

/-- Claim C8, amended: per loop iteration at most one pending command is
consumed (the command queue of the state after the check is always the tail
of the queue before it); when command handling completes without
propagating an error, the iteration proceeds to the decode/write phase if
the play flag is set, and restarts at the command check (no decode) if it is
cleared.  (When a `ChangeAudio` propagates an error the loop exits instead —
see the counterexample.) -/
theorem one_command_then_decode_phase :
    (∀ (env : Env) (p : Playback) (r : ConsumeResult),
        Playback.try_consume_next_audio_command env p = Except.ok r →
        (ConsumeResult.state r).receiver_from_audio_manager
          = p.receiver_from_audio_manager.tail)
    ∧ (∀ (env : Env) (p p1 : Playback),
        Playback.try_consume_next_audio_command env p = Except.ok (ConsumeResult.ok p1) →
        p1.play = true →
        loop_iter env p = decode_tick env p1)
    ∧ (∀ (env : Env) (p p1 : Playback),
        Playback.try_consume_next_audio_command env p = Except.ok (ConsumeResult.ok p1) →
        p1.play = false →
        loop_iter env p = Except.ok (StepResult.ran p1 [])) := by
  refine ⟨?_, ?_, ?_⟩
  · intro env p r h
    rcases hr : p.receiver_from_audio_manager with _ | ⟨cmd, rest⟩
    · unfold Playback.try_consume_next_audio_command at h
      rw [hr] at h
      simp only [Except.ok.injEq] at h
      subst h
      simp [ConsumeResult.state, hr]
    · cases cmd
      case pause =>
        unfold Playback.try_consume_next_audio_command at h
        rw [hr] at h
        simp only [Except.ok.injEq] at h
        subst h
        simp [ConsumeResult.state, Playback.sendOk, hr]
      case play =>
        unfold Playback.try_consume_next_audio_command at h
        rw [hr] at h
        simp only [Except.ok.injEq] at h
        subst h
        simp [ConsumeResult.state, Playback.sendOk, hr]
      case seek ts =>
        unfold Playback.try_consume_next_audio_command at h
        rw [hr] at h
        simp only [Except.ok.injEq] at h
        subst h
        have := (seek_preserves env { p with receiver_from_audio_manager := rest } ts).1
        simp [ConsumeResult.state, Playback.sendOk, this, hr]
      case resetPlayback =>
        unfold Playback.try_consume_next_audio_command at h
        rw [hr] at h
        simp only [Except.ok.injEq] at h
        subst h
        have := (seek_preserves env { p with receiver_from_audio_manager := rest } 0).1
        simp [ConsumeResult.state, Playback.sendOk, this, hr]
      case changeAudio a =>
        unfold Playback.try_consume_next_audio_command at h
        rw [hr] at h
        simp only [] at h
        rcases hca : Playback.change_audio env
            { p with receiver_from_audio_manager := rest } a with pan | res
        · rw [hca] at h
          simp at h
        · rw [hca] at h
          cases res with
          | error e =>
              simp only [Except.ok.injEq] at h
              subst h
              simp [ConsumeResult.state, hr]
          | ok p2 =>
              simp only [Except.ok.injEq] at h
              subst h
              have := (change_audio_ok_fields env
                { p with receiver_from_audio_manager := rest } a p2 hca).1
              simp [ConsumeResult.state, Playback.sendOk, this, hr]
  · intro env p p1 h hplay
    unfold loop_iter
    rw [h]
    simp [hplay]
  · intro env p p1 h hplay
    unfold loop_iter
    rw [h]
    simp [hplay]

/-- Witness for the amended C8 theorem at concrete inputs: with no pending
command the queue stays the (empty) tail; a playing state proceeds to the
decode phase; a paused state restarts at the command check. -/
theorem one_command_then_decode_phase_witness :
    (ConsumeResult.state (ConsumeResult.ok pLoaded)).receiver_from_audio_manager
      = pLoaded.receiver_from_audio_manager.tail
    ∧ loop_iter envGood pLoaded = decode_tick envGood pLoaded
    ∧ loop_iter envGood pPaused = Except.ok (StepResult.ran pPaused []) := by
  refine ⟨?_, ?_, ?_⟩
  · exact one_command_then_decode_phase.1 envGood pLoaded (ConsumeResult.ok pLoaded) rfl
  · exact one_command_then_decode_phase.2.1 envGood pLoaded pLoaded rfl rfl
  · exact one_command_then_decode_phase.2.2 envGood pPaused pPaused rfl rfl

/-- Claim C10: when no command is pending the controller sends no reply (the
state, its reply log included, is unchanged); every consumed command whose
handling completes without propagating an error is answered by exactly one
`Ok(())` reply, appended in consumption order. -/
theorem one_ok_reply_per_consumed_command :
    (∀ (env : Env) (p : Playback),
        p.receiver_from_audio_manager = [] →
        Playback.try_consume_next_audio_command env p
          = Except.ok (ConsumeResult.ok p))
    ∧ (∀ (env : Env) (p p1 : Playback) (cmd : AudioCommand)
        (rest : List AudioCommand),
        p.receiver_from_audio_manager = cmd :: rest →
        Playback.try_consume_next_audio_command env p = Except.ok (ConsumeResult.ok p1) →
        p1.sender_to_audio_manager
          = p.sender_to_audio_manager ++ [Except.ok ()]) := by
  constructor
  · intro env p h
    simp only [Playback.try_consume_next_audio_command, h]
  · intro env p p1 cmd rest hr h
    cases cmd
    case pause =>
      unfold Playback.try_consume_next_audio_command at h
      rw [hr] at h
      simp only [Except.ok.injEq, ConsumeResult.ok.injEq] at h
      subst h
      simp [Playback.sendOk]
    case play =>
      unfold Playback.try_consume_next_audio_command at h
      rw [hr] at h
      simp only [Except.ok.injEq, ConsumeResult.ok.injEq] at h
      subst h
      simp [Playback.sendOk]
    case seek ts =>
      unfold Playback.try_consume_next_audio_command at h
      rw [hr] at h
      simp only [Except.ok.injEq, ConsumeResult.ok.injEq] at h
      subst h
      have := (seek_preserves env { p with receiver_from_audio_manager := rest } ts).2.1
      simp [Playback.sendOk, this]
    case resetPlayback =>
      unfold Playback.try_consume_next_audio_command at h
      rw [hr] at h
      simp only [Except.ok.injEq, ConsumeResult.ok.injEq] at h
      subst h
      have := (seek_preserves env { p with receiver_from_audio_manager := rest } 0).2.1
      simp [Playback.sendOk, this]
    case changeAudio a =>
      unfold Playback.try_consume_next_audio_command at h
      rw [hr] at h
      simp only [] at h
      rcases hca : Playback.change_audio env
          { p with receiver_from_audio_manager := rest } a with pan | res
      · rw [hca] at h
        simp at h
      · rw [hca] at h
        cases res with
        | error e => simp at h
        | ok p2 =>
            simp only [Except.ok.injEq, ConsumeResult.ok.injEq] at h
            subst h
            have := (change_audio_ok_fields env
              { p with receiver_from_audio_manager := rest } a p2 hca).2.1
            simp [Playback.sendOk, this]

/-- Witness for C10 at concrete inputs: an idle check sends nothing; a
consumed `Play` command is answered by exactly one `Ok(())`. -/
theorem one_ok_reply_per_consumed_command_witness :
    Playback.try_consume_next_audio_command envGood pLoaded
      = Except.ok (ConsumeResult.ok pLoaded)
    ∧ (Playback.sendOk pLoaded).sender_to_audio_manager
      = pLoaded.sender_to_audio_manager ++ [Except.ok ()] := by
  constructor
  · exact one_ok_reply_per_consumed_command.1 envGood pLoaded rfl
  · exact one_ok_reply_per_consumed_command.2 envGood
      { pLoaded with receiver_from_audio_manager := [AudioCommand.play] }
      (Playback.sendOk pLoaded) AudioCommand.play [] rfl rfl

/-- Claim C1 (code bug): when a `ChangeAudio` command's handling fails (here:
the probe rejects the file), the controller does NOT send an error reply and
the loop does NOT continue — `try_consume_next_audio_command` propagates the
error with `?`, `do_play_loop` exits with it, and the reply log of the final
state is empty.  This contradicts both the claim and the function's own doc
comment ("Else: Return the error to the AudioManager thread."); the
`Err`-sending branch after the match is dead code. -/
theorem change_audio_failure_exits_loop_without_reply :
    loop_iter envBadProbe
      { pLoaded with receiver_from_audio_manager := [AudioCommand.changeAudio fileX] }
      = Except.ok (StepResult.exited SymError.unsupported pLoaded)
    ∧ pLoaded.sender_to_audio_manager = [] := by
  exact ⟨rfl, rfl⟩

/-- Claim C2, counterexample: a successfully handled `ChangeAudio` leaves
`seek_ts_seconds` untouched.  Starting from a state whose floor is 5, the
command completes (one `Ok` reply is sent, the new reader/decoder are
installed) and the floor is still 5, not 0 — `change_audio` never writes
`seek_ts_seconds`. -/
theorem change_audio_keeps_nonzero_floor :
    Playback.try_consume_next_audio_command envGood pC2
      = Except.ok (ConsumeResult.ok pC2r)
    ∧ pC2r.seek_ts_seconds = 5 ∧ pC2r.seek_ts_seconds ≠ 0 := by
  refine ⟨rfl, rfl, ?_⟩
  decide

/-- Claim C3, counterexample: `AudioManager::play` does not block for (or
consume) the controller's reply.  With a reply already pending on the reply
channel, `play` returns leaving the reply queue untouched, while the
spec-modelled `playSpec` ("enqueues Play; blocks until reply") consumes it.
Only the `pause` method reads the reply channel. -/
theorem play_returns_without_consuming_reply :
    AudioManager.play
      { cmd_queue := [], cmd_closed := false
        reply_queue := [Except.ok ()], reply_closed := false }
      = Except.ok
        { cmd_queue := [AudioCommand.play], cmd_closed := false
          reply_queue := [Except.ok ()], reply_closed := false }
    ∧ AudioManager.playSpec
      { cmd_queue := [], cmd_closed := false
        reply_queue := [Except.ok ()], reply_closed := false }
      = some (Except.ok
        { cmd_queue := [AudioCommand.play], cmd_closed := false
          reply_queue := [], reply_closed := false })
    ∧ ([Except.ok ()] : List Reply) ≠ [] := by
  refine ⟨rfl, rfl, ?_⟩
  decide

/-- Claim C4 (code bug): the selection rule itself is as claimed — the first
track, in declaration order, whose codec is not `CODEC_TYPE_NULL` is chosen
(for `frGood` that is `track1`, not the null-codec `trackNull` before it) —
but when NO track qualifies, `ChangeAudio` does not fail with an error: it
panics, because `get_decoder` calls `.unwrap()` on the `None` returned by
`get_first_supported_track`. -/
theorem change_audio_all_null_tracks_panics :
    get_first_supported_track frGood.tracks = some track1
    ∧ Playback.change_audio envAllNull (Playback.new []) fileX
      = Except.error Panic.unwrapNoFirstTrack := by
  exact ⟨rfl, rfl⟩

/-- Claim C8, counterexample: an iteration that consumes a failing
`ChangeAudio` does not proceed to the decode/write phase even though the
play flag is set — the loop exits instead, with the format reader's packet
stream untouched (both packets of `frGood` still pending). -/
theorem failed_change_audio_iteration_skips_decode_phase :
    loop_iter envBadProbe
      { pLoaded with receiver_from_audio_manager := [AudioCommand.changeAudio fileY] }
      = Except.ok (StepResult.exited SymError.unsupported pLoaded)
    ∧ pLoaded.play = true
    ∧ pLoaded.format_reader = some frGood
    ∧ frGood.packets.length = 2 := by
  exact ⟨rfl, rfl, rfl, rfl⟩

/-- Claim C6: a packet whose track id differs from the selected track id is
skipped before decoding — the packet is popped and the iteration ends with
no decode step (decoder untouched), no sink open attempt and no write, so no
sample buffer from a non-selected track ever reaches the sink. -/
theorem wrong_track_packet_skipped_before_decode (env : Env) (p : Playback)
    (fr : FormatReaderState) (pk : Packet) (rest : List (Except SymError Packet))
    (hq : p.receiver_from_audio_manager = [])
    (hplay : p.play = true)
    (hf : p.format_reader = some fr)
    (hpk : fr.packets = Except.ok pk :: rest)
    (ht : pk.track_id ≠ p.track_id) :
    loop_iter env p
      = Except.ok (StepResult.ran
          { p with format_reader := some { fr with packets := rest } } []) := by
  have hc : Playback.try_consume_next_audio_command env p
      = Except.ok (ConsumeResult.ok p) := by
    simp only [Playback.try_consume_next_audio_command, hq]
  unfold loop_iter
  rw [hc]
  simp only [hplay, decode_tick, hf, FormatReaderState.next_packet, hpk]
  simp [ht]

/-- Witness for C6: in `pLoaded` (selected track id 1) the first pending
packet of `frGood` belongs to track 0 and is dropped without decoding. -/
theorem wrong_track_packet_skipped_before_decode_witness :
    loop_iter envGood pLoaded
      = Except.ok (StepResult.ran
          { pLoaded with
            format_reader := some
              { frGood with packets := [Except.ok { track_id := 1, ts := 4 }] } } []) := by
  exact wrong_track_packet_skipped_before_decode envGood pLoaded frGood
    { track_id := 0, ts := 3 } [Except.ok { track_id := 1, ts := 4 }]
    rfl rfl rfl rfl (by decide)

/-- Claim C5: in any controller state (in particular any state after a
`Seek`, whose floor is the resolved seek timestamp — see the seek theorem),
a selected-track packet that decodes successfully is always decoded (the
decoder advances to the post-decode state in both cases), but its sample
buffer is written to the open sink exactly when the packet timestamp is at
or above `seek_ts_seconds`; below the floor nothing is written. -/
theorem no_rewind_write_gated_by_seek_floor (env : Env) (p : Playback)
    (fr : FormatReaderState) (pk : Packet) (rest : List (Except SymError Packet))
    (d d2 : Decoder) (buf : SampleBuffer) (out : AudioOutput)
    (hq : p.receiver_from_audio_manager = [])
    (hplay : p.play = true)
    (hf : p.format_reader = some fr)
    (hpk : fr.packets = Except.ok pk :: rest)
    (ht : pk.track_id = p.track_id)
    (hd : p.decoder = some d)
    (hdec : env.decode d pk = DecodeOutcome.ok buf d2)
    (hout : p.audio_output = some out) :
    loop_iter env p
      = Except.ok (StepResult.ran
          { p with
            format_reader := some { fr with packets := rest }
            decoder := some d2
            audio_output :=
              some (if p.seek_ts_seconds ≤ pk.ts then out.write buf else out) }
          (if p.seek_ts_seconds ≤ pk.ts then [(pk.ts, buf)] else [])) := by
  have hc : Playback.try_consume_next_audio_command env p
      = Except.ok (ConsumeResult.ok p) := by
    simp only [Playback.try_consume_next_audio_command, hq]
  unfold loop_iter
  rw [hc]
  simp only [hplay, decode_tick, hf, FormatReaderState.next_packet, hpk]
  simp only [ht, hd, hdec, hout]
  by_cases hts : p.seek_ts_seconds ≤ pk.ts <;> simp [hts]

/-- Witness for C5, both sides of the floor: from `pLoaded` with floor 10
the selected-track packet at ts 4 is decoded but not written; with floor 2
the same packet is decoded and written. -/
theorem no_rewind_write_gated_by_seek_floor_witness :
    loop_iter envGood
      { pLoaded with
        seek_ts_seconds := 10
        format_reader := some { frGood with packets := [Except.ok { track_id := 1, ts := 4 }] } }
      = Except.ok (StepResult.ran
          { pLoaded with
            seek_ts_seconds := 10
            format_reader := some { frGood with packets := [] }
            decoder := some { codec := 7, resets := 0, steps := 1 }
            audio_output := some out0 } [])
    ∧ loop_iter envGood
      { pLoaded with
        seek_ts_seconds := 2
        format_reader := some { frGood with packets := [Except.ok { track_id := 1, ts := 4 }] } }
      = Except.ok (StepResult.ran
          { pLoaded with
            seek_ts_seconds := 2
            format_reader := some { frGood with packets := [] }
            decoder := some { codec := 7, resets := 0, steps := 1 }
            audio_output := some (out0.write buf0) } [(4, buf0)]) := by
  constructor
  · exact no_rewind_write_gated_by_seek_floor envGood
      { pLoaded with
        seek_ts_seconds := 10
        format_reader := some { frGood with packets := [Except.ok { track_id := 1, ts := 4 }] } }
      { frGood with packets := [Except.ok { track_id := 1, ts := 4 }] }
      { track_id := 1, ts := 4 } [] dec0 { codec := 7, resets := 0, steps := 1 } buf0 out0
      rfl rfl rfl rfl rfl rfl rfl rfl
  · exact no_rewind_write_gated_by_seek_floor envGood
      { pLoaded with
        seek_ts_seconds := 2
        format_reader := some { frGood with packets := [Except.ok { track_id := 1, ts := 4 }] } }
      { frGood with packets := [Except.ok { track_id := 1, ts := 4 }] }
      { track_id := 1, ts := 4 } [] dec0 { codec := 7, resets := 0, steps := 1 } buf0 out0
      rfl rfl rfl rfl rfl rfl rfl rfl

/-- Claim C7: with a track loaded, handling `Seek(ts)` resets the decoder,
seeks the demuxer in accurate mode on the selected track, and records the
backend's resolved timestamp as the new floor; a `ResetRequired` or any
other seek error sets the floor to 0; the play flag is unchanged in all
cases; and consuming the `Seek` command never exits the loop (the handler
returns normally and an `Ok` reply is sent). -/
theorem seek_accurate_resets_decoder_records_floor (env : Env) (p : Playback)
    (ts : Nat) (fr : FormatReaderState) (d : Decoder)
    (hf : p.format_reader = some fr) (hd : p.decoder = some d) :
    Playback.seek env p ts
      = { p with
          seek_ts_seconds :=
            resolvedFloor (env.seek_fr SeekMode.accurate ts (some p.track_id) fr).1
          format_reader := some (env.seek_fr SeekMode.accurate ts (some p.track_id) fr).2
          decoder := some d.reset }
    ∧ (∀ rts, (env.seek_fr SeekMode.accurate ts (some p.track_id) fr).1 = SeekOutcome.ok rts →
        (Playback.seek env p ts).seek_ts_seconds = rts)
    ∧ ((env.seek_fr SeekMode.accurate ts (some p.track_id) fr).1 = SeekOutcome.resetRequired →
        (Playback.seek env p ts).seek_ts_seconds = 0)
    ∧ (∀ e, (env.seek_fr SeekMode.accurate ts (some p.track_id) fr).1 = SeekOutcome.err e →
        (Playback.seek env p ts).seek_ts_seconds = 0)
    ∧ (Playback.seek env p ts).play = p.play
    ∧ (∀ rest, p.receiver_from_audio_manager = AudioCommand.seek ts :: rest →
        Playback.try_consume_next_audio_command env p
          = Except.ok (ConsumeResult.ok
              (Playback.sendOk
                (Playback.seek env { p with receiver_from_audio_manager := rest } ts)))) := by
  have hmain : Playback.seek env p ts
      = { p with
          seek_ts_seconds :=
            resolvedFloor (env.seek_fr SeekMode.accurate ts (some p.track_id) fr).1
          format_reader := some (env.seek_fr SeekMode.accurate ts (some p.track_id) fr).2
          decoder := some d.reset } := by
    simp only [Playback.seek, hf, hd]
  refine ⟨hmain, ?_, ?_, ?_, ?_, ?_⟩
  · intro rts hrts
    rw [hmain]
    simp [hrts, resolvedFloor]
  · intro hrr
    rw [hmain]
    simp [hrr, resolvedFloor]
  · intro e he
    rw [hmain]
    simp [he, resolvedFloor]
  · rw [hmain]
  · intro rest hr
    simp only [Playback.try_consume_next_audio_command, hr]

/-- Witness for C7 at concrete inputs, covering all three backend outcomes:
`envGood` resolves seek 2 to 20, `envSeekReset` reports `ResetRequired`
(floor 0), `envSeekErr` fails (floor 0); the play flag survives and the
command is consumed normally. -/
theorem seek_accurate_resets_decoder_records_floor_witness :
    Playback.seek envGood pLoaded 2
      = { pLoaded with
          seek_ts_seconds := 20
          format_reader := some frGood
          decoder := some dec0.reset }
    ∧ (Playback.seek envSeekReset pLoaded 2).seek_ts_seconds = 0
    ∧ (Playback.seek envSeekErr pLoaded 2).seek_ts_seconds = 0
    ∧ (Playback.seek envGood pLoaded 2).play = pLoaded.play
    ∧ Playback.try_consume_next_audio_command envGood
        { pLoaded with receiver_from_audio_manager := [AudioCommand.seek 2] }
      = Except.ok (ConsumeResult.ok (Playback.sendOk (Playback.seek envGood pLoaded 2))) := by
  refine ⟨?_, ?_, ?_, ?_, ?_⟩
  · exact (seek_accurate_resets_decoder_records_floor envGood pLoaded 2 frGood dec0
      rfl rfl).1
  · exact (seek_accurate_resets_decoder_records_floor envSeekReset pLoaded 2 frGood dec0
      rfl rfl).2.2.1 rfl
  · exact (seek_accurate_resets_decoder_records_floor envSeekErr pLoaded 2 frGood dec0
      rfl rfl).2.2.2.1 SymError.ioError rfl
  · exact (seek_accurate_resets_decoder_records_floor envGood pLoaded 2 frGood dec0
      rfl rfl).2.2.2.2.1
  · exact (seek_accurate_resets_decoder_records_floor envGood
      { pLoaded with receiver_from_audio_manager := [AudioCommand.seek 2] } 2 frGood dec0
      rfl rfl).2.2.2.2.2 [] rfl

/-- The reader/decoder pairing invariant of the controller: `format_reader`
and `decoder` are both present or both absent. -/
def readerDecoderPaired (p : Playback) : Prop :=
  p.format_reader.isSome = p.decoder.isSome

/-- The only panic `get_decoder` can raise is the unwrap on a missing first
supported track. -/
lemma get_decoder_panic (env : Env) (fr : FormatReaderState) (pan : Panic)
    (h : get_decoder env fr = Except.error pan) :
    pan = Panic.unwrapNoFirstTrack := by
  unfold get_decoder at h
  split at h
  · simp only [Except.error.injEq] at h
    exact h.symm
  · simp at h

/-- The only panic `change_audio` can raise is the unwrap on a missing first
supported track. -/
lemma change_audio_panic (env : Env) (p : Playback) (a : AudioFile)
    (pan : Panic)
    (h : Playback.change_audio env p a = Except.error pan) :
    pan = Panic.unwrapNoFirstTrack := by
  unfold Playback.change_audio at h
  repeat' split at h
  · simp at h
  · rename_i pan2 hgd
    simp only [Except.error.injEq] at h
    subst h
    exact get_decoder_panic env _ _ hgd
  · simp at h
  · simp only [Except.error.injEq] at h
    exact h.symm
  · simp at h

/-- The only panic the command consumer can raise is the missing-first-track
unwrap inside a `ChangeAudio`. -/
lemma consume_panic (env : Env) (p : Playback) (pan : Panic)
    (h : Playback.try_consume_next_audio_command env p = Except.error pan) :
    pan = Panic.unwrapNoFirstTrack := by
  rcases hr : p.receiver_from_audio_manager with _ | ⟨cmd, rest⟩
  · unfold Playback.try_consume_next_audio_command at h
    rw [hr] at h
    simp at h
  · cases cmd
    case pause =>
      unfold Playback.try_consume_next_audio_command at h
      rw [hr] at h
      simp at h
    case play =>
      unfold Playback.try_consume_next_audio_command at h
      rw [hr] at h
      simp at h
    case seek ts =>
      unfold Playback.try_consume_next_audio_command at h
      rw [hr] at h
      simp at h
    case resetPlayback =>
      unfold Playback.try_consume_next_audio_command at h
      rw [hr] at h
      simp at h
    case changeAudio a =>
      unfold Playback.try_consume_next_audio_command at h
      rw [hr] at h
      simp only [] at h
      rcases hca : Playback.change_audio env
          { p with receiver_from_audio_manager := rest } a with pan2 | res
      · rw [hca] at h
        simp only [Except.error.injEq] at h
        subst h
        exact change_audio_panic env _ a _ hca
      · rw [hca] at h
        cases res <;> simp at h

/-- With both handles present, one decode tick either exits with a stream
error, or continues with both handles still present, or panics only at the
sink-open unwrap. -/
lemma decode_tick_shape (env : Env) (p : Playback) (fr : FormatReaderState)
    (d : Decoder)
    (hf : p.format_reader = some fr) (hd : p.decoder = some d) :
    (∃ e q, decode_tick env p = Except.ok (StepResult.exited e q))
    ∨ (∃ q w, decode_tick env p = Except.ok (StepResult.ran q w)
        ∧ q.format_reader.isSome = true ∧ q.decoder.isSome = true)
    ∨ decode_tick env p = Except.error Panic.tryOpenFailed := by
  rcases hnp : fr.next_packet with e | ⟨pk, fr2⟩
  · exact Or.inl ⟨e, p, by simp [decode_tick, hf, hnp]⟩
  · by_cases htk : pk.track_id = p.track_id
    · rcases hdec : env.decode d pk with ⟨buf, d2⟩ | d2 | ⟨e2, d2⟩
      · rcases hao : p.audio_output with _ | out
        · rcases hot : env.try_open buf.spec buf.capacity with e3 | out2
          · refine Or.inr (Or.inr ?_)
            simp [decode_tick, hf, hnp, htk, hd, hdec, hao, hot]
          · by_cases hts : p.seek_ts_seconds ≤ pk.ts
            · refine Or.inr (Or.inl ⟨{ p with format_reader := some fr2, decoder := some d2, audio_output := some (out2.write buf) }, [(pk.ts, buf)], ?_, by simp, by simp⟩)
              simp [decode_tick, hf, hnp, htk, hd, hdec, hao, hot, hts]
            · refine Or.inr (Or.inl ⟨{ p with format_reader := some fr2, decoder := some d2, audio_output := some out2 }, [], ?_, by simp, by simp⟩)
              simp [decode_tick, hf, hnp, htk, hd, hdec, hao, hot, hts]
        · by_cases hts : p.seek_ts_seconds ≤ pk.ts
          · refine Or.inr (Or.inl ⟨{ p with format_reader := some fr2, decoder := some d2, audio_output := some (out.write buf) }, [(pk.ts, buf)], ?_, by simp, by simp⟩)
            simp [decode_tick, hf, hnp, htk, hd, hdec, hao, hts]
          · refine Or.inr (Or.inl ⟨{ p with format_reader := some fr2, decoder := some d2 }, [], ?_, by simp, by simp⟩)
            simp [decode_tick, hf, hnp, htk, hd, hdec, hao, hts]
      · refine Or.inr (Or.inl ⟨{ p with format_reader := some fr2, decoder := some d2 }, [], ?_, by simp, by simp⟩)
        simp [decode_tick, hf, hnp, htk, hd, hdec]
      · refine Or.inl ⟨e2, { p with format_reader := some fr2, decoder := some d2 }, ?_⟩
        simp [decode_tick, hf, hnp, htk, hd, hdec]
    · refine Or.inr (Or.inl ⟨{ p with format_reader := some fr2 }, [], ?_, by simp, by simp [hd]⟩)
      simp [decode_tick, hf, hnp, htk]

/-- Under the pairing invariant with a track loaded, a whole loop iteration
never hits the `format_reader`/`decoder` unwraps, and when it continues the
invariant and loadedness persist. -/
lemma loop_iter_safe (env : Env) (p : Playback)
    (hp : readerDecoderPaired p) (hf : p.format_reader.isSome = true) :
    (loop_iter env p ≠ Except.error Panic.unwrapNoneFormatReader
      ∧ loop_iter env p ≠ Except.error Panic.unwrapNoneDecoder)
    ∧ ∀ q w, loop_iter env p = Except.ok (StepResult.ran q w) →
        q.format_reader.isSome = true ∧ q.decoder.isSome = true := by
  rcases hc : Playback.try_consume_next_audio_command env p with pan | r
  · have hpan := consume_panic env p pan hc
    subst hpan
    have hli : loop_iter env p = Except.error Panic.unwrapNoFirstTrack := by
      simp [loop_iter, hc]
    refine ⟨⟨?_, ?_⟩, ?_⟩
    · rw [hli]
      simp
    · rw [hli]
      simp
    · intro q w hq
      rw [hli] at hq
      simp at hq
  · have hstate : (ConsumeResult.state r).format_reader.isSome = true
        ∧ (ConsumeResult.state r).decoder.isSome = true := by
      rcases consume_state_reader_decoder env p r hc with ⟨h1, h2⟩ | ⟨h1, h2⟩
      · refine ⟨h1 ▸ hf, ?_⟩
        rw [h2]
        rw [readerDecoderPaired] at hp
        rw [hp] at hf
        exact hf
      · exact ⟨h1, h2⟩
    cases r with
    | err e p1 =>
        have hli : loop_iter env p = Except.ok (StepResult.exited e p1) := by
          simp [loop_iter, hc]
        refine ⟨⟨?_, ?_⟩, ?_⟩
        · rw [hli]
          simp
        · rw [hli]
          simp
        · intro q w hq
          rw [hli] at hq
          simp at hq
    | ok p1 =>
        by_cases hplay : p1.play = true
        · obtain ⟨fr1, hfr1⟩ := Option.isSome_iff_exists.mp hstate.1
          obtain ⟨d1, hd1⟩ := Option.isSome_iff_exists.mp hstate.2
          have hli : loop_iter env p = decode_tick env p1 := by
            simp [loop_iter, hc, hplay]
          rcases decode_tick_shape env p1 fr1 d1 hfr1 hd1 with
            ⟨e, q0, hs⟩ | ⟨q0, w0, hs, hq1, hq2⟩ | hs
          · refine ⟨⟨?_, ?_⟩, ?_⟩
            · rw [hli, hs]
              simp
            · rw [hli, hs]
              simp
            · intro q w hq
              rw [hli, hs] at hq
              simp at hq
          · refine ⟨⟨?_, ?_⟩, ?_⟩
            · rw [hli, hs]
              simp
            · rw [hli, hs]
              simp
            · intro q w hq
              rw [hli, hs] at hq
              simp only [Except.ok.injEq, StepResult.ran.injEq] at hq
              obtain ⟨hqa, hqb⟩ := hq
              subst hqa
              exact ⟨hq1, hq2⟩
          · refine ⟨⟨?_, ?_⟩, ?_⟩
            · rw [hli, hs]
              simp
            · rw [hli, hs]
              simp
            · intro q w hq
              rw [hli, hs] at hq
              simp at hq
        · have hplay2 : p1.play = false := by
            cases hpb : p1.play
            · rfl
            · exact absurd hpb hplay
          have hli : loop_iter env p = Except.ok (StepResult.ran p1 []) := by
            simp [loop_iter, hc, hplay2]
          refine ⟨⟨?_, ?_⟩, ?_⟩
          · rw [hli]
            simp
          · rw [hli]
            simp
          · intro q w hq
            rw [hli] at hq
            simp only [Except.ok.injEq, StepResult.ran.injEq] at hq
            obtain ⟨hqa, hqb⟩ := hq
            subst hqa
            exact hstate

/-- Claim C9: the pairing invariant — `format_reader` and `decoder` are both
`None` or both `Some` — holds initially and is preserved by every consumed
command; once a track is loaded both stay present through command handling
and through every continuing loop iteration; exiting the awaiting-track
phase (leaving the `both-None` region) means both are present; and under
the invariant with a track loaded the loop can never hit the two `unwrap()`
panics on `format_reader`/`decoder`. -/
theorem reader_decoder_paired_and_unwraps_safe :
    (∀ cmds, readerDecoderPaired (Playback.new cmds))
    ∧ (∀ (env : Env) (p : Playback) (r : ConsumeResult),
        readerDecoderPaired p →
        Playback.try_consume_next_audio_command env p = Except.ok r →
        readerDecoderPaired (ConsumeResult.state r))
    ∧ (∀ (env : Env) (p : Playback) (r : ConsumeResult),
        readerDecoderPaired p → p.format_reader.isSome = true →
        Playback.try_consume_next_audio_command env p = Except.ok r →
        (ConsumeResult.state r).format_reader.isSome = true
          ∧ (ConsumeResult.state r).decoder.isSome = true)
    ∧ (∀ p : Playback, readerDecoderPaired p →
        ¬(p.format_reader = none ∧ p.decoder = none) →
        p.format_reader.isSome = true ∧ p.decoder.isSome = true)
    ∧ (∀ (env : Env) (p : Playback), readerDecoderPaired p →
        p.format_reader.isSome = true →
        loop_iter env p ≠ Except.error Panic.unwrapNoneFormatReader
          ∧ loop_iter env p ≠ Except.error Panic.unwrapNoneDecoder)
    ∧ (∀ (env : Env) (p q : Playback) (w : List (Nat × SampleBuffer)),
        readerDecoderPaired p → p.format_reader.isSome = true →
        loop_iter env p = Except.ok (StepResult.ran q w) →
        q.format_reader.isSome = true ∧ q.decoder.isSome = true) := by
  refine ⟨?_, ?_, ?_, ?_, ?_, ?_⟩
  · intro cmds
    rfl
  · intro env p r hp h
    rcases consume_state_reader_decoder env p r h with ⟨h1, h2⟩ | ⟨h1, h2⟩
    · rw [readerDecoderPaired, h1, h2]
      exact hp
    · rw [readerDecoderPaired, h1, h2]
  · intro env p r hp hf h
    rcases consume_state_reader_decoder env p r h with ⟨h1, h2⟩ | ⟨h1, h2⟩
    · refine ⟨h1 ▸ hf, ?_⟩
      rw [h2]
      rw [readerDecoderPaired] at hp
      rw [hp] at hf
      exact hf
    · exact ⟨h1, h2⟩
  · intro p hp hn
    rcases hfr : p.format_reader with _ | fr
    · rcases hdc : p.decoder with _ | d
      · exact absurd ⟨hfr, hdc⟩ hn
      · rw [readerDecoderPaired, hfr, hdc] at hp
        simp at hp
    · rw [readerDecoderPaired, hfr] at hp
      exact ⟨by simp [hfr], hp.symm⟩
  · intro env p hp hf
    exact (loop_iter_safe env p hp hf).1
  · intro env p q w hp hf h
    exact (loop_iter_safe env p hp hf).2 q w h

/-- Witness for C9 at concrete inputs: the invariant holds for the initial
state and for `pLoaded`; an idle command check preserves it; leaving the
awaiting-track region yields both handles; and the loop iteration from
`pLoaded` (which drops the wrong-track packet) avoids the two unwraps and
keeps both handles. -/
theorem reader_decoder_paired_and_unwraps_safe_witness :
    readerDecoderPaired (Playback.new [])
    ∧ readerDecoderPaired (ConsumeResult.state (ConsumeResult.ok pLoaded))
    ∧ ((ConsumeResult.state (ConsumeResult.ok pLoaded)).format_reader.isSome = true
        ∧ (ConsumeResult.state (ConsumeResult.ok pLoaded)).decoder.isSome = true)
    ∧ (pLoaded.format_reader.isSome = true ∧ pLoaded.decoder.isSome = true)
    ∧ (loop_iter envGood pLoaded ≠ Except.error Panic.unwrapNoneFormatReader
        ∧ loop_iter envGood pLoaded ≠ Except.error Panic.unwrapNoneDecoder)
    ∧ (({ pLoaded with
          format_reader := some
            { frGood with packets := [Except.ok { track_id := 1, ts := 4 }] } } :
            Playback).format_reader.isSome = true
        ∧ ({ pLoaded with
          format_reader := some
            { frGood with packets := [Except.ok { track_id := 1, ts := 4 }] } } :
            Playback).decoder.isSome = true) := by
  refine ⟨?_, ?_, ?_, ?_, ?_, ?_⟩
  · exact reader_decoder_paired_and_unwraps_safe.1 []
  · exact reader_decoder_paired_and_unwraps_safe.2.1 envGood pLoaded
      (ConsumeResult.ok pLoaded) rfl rfl
  · exact reader_decoder_paired_and_unwraps_safe.2.2.1 envGood pLoaded
      (ConsumeResult.ok pLoaded) rfl rfl rfl
  · exact reader_decoder_paired_and_unwraps_safe.2.2.2.1 pLoaded rfl
      (by intro hcon; exact absurd hcon.1 (by simp [pLoaded]))
  · exact reader_decoder_paired_and_unwraps_safe.2.2.2.2.1 envGood pLoaded rfl rfl
  · exact reader_decoder_paired_and_unwraps_safe.2.2.2.2.2 envGood pLoaded
      { pLoaded with
        format_reader := some
          { frGood with packets := [Except.ok { track_id := 1, ts := 4 }] } } []
      rfl rfl (by decide)

end Hathor
